import Mathlib

/-!
Verification of the cache-consistency / optimistic-mutation layer of the
admin-dashboard repository (React Query hooks, URL state codec, API error
handling).  The TypeScript sources are shallowly embedded as executable Lean
definitions; JavaScript numbers that can be NaN are modelled as
Option Int (none = NaN), JavaScript string falsiness (null / empty string)
is modelled explicitly, and URLSearchParams is modelled by its observable
get behaviour, a function from key to Option String.
-/

namespace Dashboard

/-! ## JavaScript string/number primitives used by the URL state codec -/

/-- JavaScript whitespace test, covering the characters parseInt trims
(tab through carriage return, space, no-break space). -/
def jsIsSpace (c : Char) : Bool :=
  (9 ≤ c.toNat && c.toNat ≤ 13) || c.toNat == 32 || c.toNat == 160

/-- The decimal digit character for a value d < 10 (code point 48 + d). -/
def jsDigitChar (d : Nat) : Char := Char.ofNat (48 + d)

/-- Decimal digit test, as used for the longest-digit-run scan of parseInt. -/
def isDigitChar (c : Char) : Bool := 48 ≤ c.toNat && c.toNat ≤ 57

/-- Hexadecimal digit test (for the 0x branch of parseInt). -/
def isHexDigitChar (c : Char) : Bool :=
  (48 ≤ c.toNat && c.toNat ≤ 57) || (97 ≤ c.toNat && c.toNat ≤ 102) ||
    (65 ≤ c.toNat && c.toNat ≤ 70)

/-- Numeric value of one hexadecimal digit character. -/
def hexDigitVal (c : Char) : Nat :=
  if 97 ≤ c.toNat then c.toNat - 87
  else if 65 ≤ c.toNat then c.toNat - 55
  else c.toNat - 48

/-- Value of a big-endian run of decimal digit characters. -/
def parseDecDigits (cs : List Char) : Nat :=
  cs.foldl (fun a c => a * 10 + (c.toNat - 48)) 0

/-- Value of a big-endian run of hexadecimal digit characters. -/
def parseHexDigits (cs : List Char) : Nat :=
  cs.foldl (fun a c => a * 16 + hexDigitVal c) 0

/-- Fuel-bounded digit extraction, most significant first; the fuel bounds
the recursion depth and any fuel at least n is enough. -/
def natCharsAux : Nat → Nat → List Char
  | 0, _ => []
  | fuel + 1, n =>
    if n = 0 then [] else natCharsAux fuel (n / 10) ++ [jsDigitChar (n % 10)]

/-- Decimal digit characters of a natural number, most significant first,
as produced by JavaScript Number.prototype.toString for integers. -/
def natChars (n : Nat) : List Char :=
  if n = 0 then [Char.ofNat 48] else natCharsAux n n

/-- Decimal character rendering of an integer (minus sign for negatives). -/
def intChars (n : Int) : List Char :=
  if n < 0 then Char.ofNat 45 :: natChars n.natAbs else natChars n.toNat

/-- JavaScript toString for an integer-valued number. -/
def intToString (n : Int) : String := String.mk (intChars n)

/-- JavaScript toString for a number that may be NaN (none). -/
def jsNumToString : Option Int → String
  | none => "NaN"
  | some n => intToString n

/-- Detects the hexadecimal 0x/0X form that parseInt radix-autodetects. -/
def jsHexFlag : List Char → Bool
  | c0 :: c1 :: _ => c0 == Char.ofNat 48 && (c1 == Char.ofNat 120 || c1 == Char.ofNat 88)
  | _ => false

/-- Leading natural-number parse of parseInt after sign handling: the 0x/0X
prefixed form parses hexadecimal digits, otherwise the longest leading run
of decimal digits; an empty run yields NaN (none). -/
def jsParseLeadingNat (cs : List Char) : Option Nat :=
  if jsHexFlag cs then
    let hs := (cs.drop 2).takeWhile isHexDigitChar
    if hs.isEmpty then none else some (parseHexDigits hs)
  else
    let ds := cs.takeWhile isDigitChar
    if ds.isEmpty then none else some (parseDecDigits ds)

/-- Sign handling of parseInt on the whitespace-trimmed character list. -/
def jsParseIntChars : List Char → Option Int
  | [] => none
  | c :: rest =>
    if c = Char.ofNat 45 then (jsParseLeadingNat rest).map (fun m => -(Int.ofNat m))
    else if c = Char.ofNat 43 then (jsParseLeadingNat rest).map Int.ofNat
    else (jsParseLeadingNat (c :: rest)).map Int.ofNat

/-- JavaScript parseInt with no explicit radix: trim leading whitespace,
take an optional sign, then parse a leading digit run; none models NaN. -/
def jsParseInt (s : String) : Option Int :=
  jsParseIntChars (s.toList.dropWhile jsIsSpace)

/-- JavaScript x || dflt for a nullable string x: null and the empty string
are falsy and give the default. -/
def jsOr (x : Option String) (dflt : String) : String :=
  match x with
  | none => dflt
  | some s => if s = "" then dflt else s

/-! ### Round-trip facts about the decimal printer and parseInt -/

theorem jsDigitChar_toNat {d : Nat} (h : d < 10) : (jsDigitChar d).toNat = 48 + d := by
  interval_cases d <;> decide

theorem natCharsAux_digits {c : Char} :
    ∀ {fuel n : Nat}, c ∈ natCharsAux fuel n → 48 ≤ c.toNat ∧ c.toNat ≤ 57 := by
  intro fuel
  induction fuel with
  | zero => intro n hc; simp [natCharsAux] at hc
  | succ fuel ih =>
    intro n hc
    unfold natCharsAux at hc
    split at hc
    · simp at hc
    · rw [List.mem_append] at hc
      rcases hc with hc | hc
      · exact ih hc
      · simp at hc
        subst hc
        rw [jsDigitChar_toNat (Nat.mod_lt _ (by norm_num))]
        omega

theorem natChars_digits {c : Char} {n : Nat} (hc : c ∈ natChars n) :
    48 ≤ c.toNat ∧ c.toNat ≤ 57 := by
  unfold natChars at hc
  split at hc
  · simp at hc
    subst hc
    decide
  · exact natCharsAux_digits hc

theorem natChars_ne_nil (n : Nat) : natChars n ≠ [] := by
  unfold natChars
  split
  · simp
  · rcases n with _ | m
    · simp_all
    · unfold natCharsAux
      split
      · simp_all
      · simp

theorem takeWhile_all {p : Char → Bool} :
    ∀ {l : List Char}, (∀ c ∈ l, p c = true) → l.takeWhile p = l := by
  intro l
  induction l with
  | nil => intro _; rfl
  | cons c cs ih =>
    intro h
    rw [List.takeWhile_cons, h c (by simp)]
    simp [ih fun x hx => h x (by simp [hx])]

theorem parseDecDigits_append_digit (l : List Char) (c : Char) :
    parseDecDigits (l ++ [c]) = parseDecDigits l * 10 + (c.toNat - 48) := by
  unfold parseDecDigits
  rw [List.foldl_append]
  rfl

theorem parseDecDigits_natCharsAux :
    ∀ fuel n, n ≤ fuel → parseDecDigits (natCharsAux fuel n) = n := by
  intro fuel
  induction fuel with
  | zero =>
    intro n hn
    have : n = 0 := by omega
    subst this
    rfl
  | succ fuel ih =>
    intro n hn
    unfold natCharsAux
    by_cases h0 : n = 0
    · subst h0; rw [if_pos rfl]; rfl
    · rw [if_neg h0, parseDecDigits_append_digit,
        ih (n / 10) (by omega), jsDigitChar_toNat (Nat.mod_lt _ (by norm_num))]
      omega

/-- The decimal parser inverts the decimal printer on naturals. -/
theorem parseDecDigits_natChars (n : Nat) : parseDecDigits (natChars n) = n := by
  unfold natChars
  by_cases h0 : n = 0
  · subst h0; decide
  · rw [if_neg h0]
    exact parseDecDigits_natCharsAux n n le_rfl

theorem digit_not_space {c : Char} (hc : 48 ≤ c.toNat ∧ c.toNat ≤ 57) :
    jsIsSpace c = false := by
  unfold jsIsSpace
  simp only [Bool.or_eq_false_iff, Bool.and_eq_false_iff, decide_eq_false_iff_not,
    not_le, beq_eq_false_iff_ne, ne_eq]
  omega

theorem natChars_head_facts (c : Char) (cs : List Char) (n : Nat)
    (h : natChars n = c :: cs) :
    jsIsSpace c = false ∧ c ≠ Char.ofNat 45 ∧ c ≠ Char.ofNat 43 := by
  have hc : 48 ≤ c.toNat ∧ c.toNat ≤ 57 := natChars_digits (by rw [h]; simp)
  refine ⟨digit_not_space hc, ?_, ?_⟩
  · intro he; rw [he] at hc; exact absurd hc (by decide)
  · intro he; rw [he] at hc; exact absurd hc (by decide)

theorem jsHexFlag_natChars (n : Nat) : jsHexFlag (natChars n) = false := by
  rcases hshape : natChars n with _ | ⟨c0, _ | ⟨c1, rest⟩⟩
  · rfl
  · rfl
  · have hc1 : 48 ≤ c1.toNat ∧ c1.toNat ≤ 57 := natChars_digits (by rw [hshape]; simp)
    have h120 : c1 ≠ Char.ofNat 120 := by
      intro he; rw [he] at hc1; exact absurd hc1 (by decide)
    have h88 : c1 ≠ Char.ofNat 88 := by
      intro he; rw [he] at hc1; exact absurd hc1 (by decide)
    unfold jsHexFlag
    simp [h120, h88]

theorem jsParseLeadingNat_natChars (n : Nat) :
    jsParseLeadingNat (natChars n) = some n := by
  have hall : ∀ c ∈ natChars n, isDigitChar c = true := by
    intro c hc
    have := natChars_digits hc
    unfold isDigitChar
    simp only [Bool.and_eq_true, decide_eq_true_eq]
    omega
  have htake : (natChars n).takeWhile isDigitChar = natChars n := takeWhile_all hall
  have hemp : (natChars n).isEmpty = false := by
    rcases hx : natChars n with _ | ⟨a, l⟩
    · exact absurd hx (natChars_ne_nil n)
    · rfl
  unfold jsParseLeadingNat
  rw [jsHexFlag_natChars]
  simp only [Bool.false_eq_true, if_false]
  rw [htake, hemp]
  simp [parseDecDigits_natChars]

theorem dropWhile_head_false {p : Char → Bool} {c : Char} {cs : List Char}
    (h : p c = false) : (c :: cs).dropWhile p = c :: cs := by
  simp [List.dropWhile_cons, h]

/-- parseInt inverts the integer printer: decoding an encoded page or
pageSize number recovers the number. -/
theorem jsParseInt_intToString (n : Int) : jsParseInt (intToString n) = some n := by
  unfold intToString intChars jsParseInt
  by_cases hneg : n < 0
  · rw [if_pos hneg]
    have htl : (String.mk (Char.ofNat 45 :: natChars n.natAbs)).toList
        = Char.ofNat 45 :: natChars n.natAbs := rfl
    rw [htl, dropWhile_head_false (by decide)]
    simp only [jsParseIntChars, if_true]
    rw [jsParseLeadingNat_natChars]
    simp only [Option.map_some']
    congr 1
    simp only [Int.ofNat_eq_natCast]
    omega
  · rw [if_neg hneg]
    have htl : (String.mk (natChars n.toNat)).toList = natChars n.toNat := rfl
    rw [htl]
    obtain ⟨c, cs, hsh⟩ : ∃ c cs, natChars n.toNat = c :: cs := by
      rcases hx : natChars n.toNat with _ | ⟨c, cs⟩
      · exact absurd hx (natChars_ne_nil _)
      · exact ⟨c, cs, rfl⟩
    obtain ⟨hsp, h45, h43⟩ := natChars_head_facts c cs n.toNat hsh
    rw [hsh, dropWhile_head_false hsp]
    simp only [jsParseIntChars]
    rw [if_neg h45, if_neg h43, ← hsh, jsParseLeadingNat_natChars]
    simp only [Option.map_some']
    congr 1
    simp only [Int.ofNat_eq_natCast]
    omega

/-- parseInt of the string NaN is NaN. -/
theorem jsParseInt_nan : jsParseInt "NaN" = none := by decide

/-- Round trip of the printer/parser pair on possibly-NaN numbers. -/
theorem jsParseInt_jsNumToString (x : Option Int) :
    jsParseInt (jsNumToString x) = x := by
  cases x with
  | none => exact jsParseInt_nan
  | some n => exact jsParseInt_intToString n

theorem jsNumToString_ne_empty (x : Option Int) : jsNumToString x ≠ "" := by
  cases x with
  | none => decide
  | some n =>
    unfold jsNumToString intToString
    intro h
    have : intChars n = [] := by
      have := congrArg String.toList h
      simpa using this
    unfold intChars at this
    split at this
    · simp at this
    · exact natChars_ne_nil _ this

/-! ## Data model (src/types via the API contract and hook usage) -/

/-- A user record: identity is userId; status is the string enum
active/inactive; groups are (groupId, groupName) pairs. -/
structure User where
  userId : String
  name : String
  status : String
  groups : List (String × String)
deriving DecidableEq

/-- The payload inside a list response: users plus authoritative totalCount. -/
structure UsersData where
  users : List User
  totalCount : Int
deriving DecidableEq

/-- Shape of a GET users response as cached by React Query. -/
structure UsersApiResponse where
  data : UsersData
deriving DecidableEq

/-- The list parameters that form the query-key fingerprint
(userQueryKeys.list params). -/
structure PaginationParams where
  page : Int
  pageSize : Int
  query : String
  status : String
  sortBy : Option String
  sortOrder : Option String
deriving DecidableEq

/-- The React Query cache restricted to user-list entries, observed through
getQueryData: a map from fingerprint to the cached payload, plus a counter
of invalidateQueries calls (staleness marking). -/
structure CacheState where
  cache : PaginationParams → Option UsersApiResponse
  invalidations : Nat

/-- queryClient.setQueryData with a plain value: replaces or inserts. -/
def setQueryData (c : PaginationParams → Option UsersApiResponse)
    (fp : PaginationParams) (v : UsersApiResponse) :
    PaginationParams → Option UsersApiResponse :=
  fun k => if k = fp then some v else c k

/-- queryClient.setQueryData with an updater function: the updater receives
the current entry (undefined when absent); when the updater returns
undefined, React Query bails out and the cache is unchanged. -/
def setQueryDataWith (c : PaginationParams → Option UsersApiResponse)
    (fp : PaginationParams)
    (updater : Option UsersApiResponse → Option UsersApiResponse) :
    PaginationParams → Option UsersApiResponse :=
  match updater (c fp) with
  | none => c
  | some v => fun k => if k = fp then some v else c k

/-- The optimistic updater passed to setQueryData in
useUpdateUserStatus.onMutate: when the old payload has a users list, map
over it replacing the status of the record whose userId matches; the new
object is rebuilt as data with the mapped users. -/
def optimisticUpdater (userId status : String) :
    Option UsersApiResponse → Option UsersApiResponse
  | none => none
  | some old =>
    some ⟨{ old.data with
      users := old.data.users.map
        (fun u => if u.userId = userId then { u with status := status } else u) }⟩

/-- The context returned by onMutate for rollback: either
previousData/params captured for the current fingerprint, or the empty
object when no currentParams were supplied. -/
structure MutationContext where
  previousData : Option UsersApiResponse := none
  params : Option PaginationParams := none

/-- useUpdateUserStatus.onMutate: when currentParams is known, snapshot the
cached payload for that fingerprint, apply the optimistic update, and
return the snapshot context; otherwise do nothing and return the empty
context. -/
def useUpdateOnMutate (currentParams : Option PaginationParams)
    (st : CacheState) (userId status : String) : CacheState × MutationContext :=
  match currentParams with
  | some fp =>
    let prevData := st.cache fp
    ({ st with cache := setQueryDataWith st.cache fp (optimisticUpdater userId status) },
      { previousData := prevData, params := some fp })
  | none => (st, {})

/-- useUpdateUserStatus.onError: when the context carries both a truthy
previousData and params, restore the previous payload with a full
setQueryData replace; otherwise leave the cache alone. -/
def useUpdateOnError (st : CacheState) (ctx : MutationContext) : CacheState :=
  match ctx.previousData, ctx.params with
  | some prev, some fp => { st with cache := setQueryData st.cache fp prev }
  | _, _ => st

/-- Shape of the PATCH response: success flag, the authoritative updated
record (possibly absent defensively), and a message. -/
structure MutationResult where
  success : Bool
  data : Option User
  message : String

/-- The object spread of the server record over the cached record in
onSuccess. The server returns a complete User, so every field of the
cached record is overridden by the corresponding server field. -/
def spreadUser (_u updated : User) : User :=
  { userId := updated.userId, name := updated.name,
    status := updated.status, groups := updated.groups }

/-- useUpdateUserStatus.onSuccess: when currentParams is known and the
response carries a record, merge that record into the cached page for the
same fingerprint by mapping over users; never invalidate. When either is
missing, do nothing at all (the code comments: never invalidate, keep the
optimistic update without spinner). -/
def useUpdateOnSuccess (currentParams : Option PaginationParams)
    (st : CacheState) (result : MutationResult) : CacheState :=
  match currentParams, result.data with
  | some fp, some updated =>
    { st with cache := setQueryDataWith st.cache fp (fun old =>
        match old with
        | none => none
        | some o =>
          some ⟨{ o.data with
            users := o.data.users.map
              (fun u => if u.userId = updated.userId then spreadUser u updated else u) }⟩) }
  | _, _ => st

/-- useInvalidateUsersCache.invalidateAll: marks every users query stale
(modelled as bumping the invalidation counter). -/
def invalidateAllUsers (st : CacheState) : CacheState :=
  { st with invalidations := st.invalidations + 1 }

/-! ## Retry model for useUsers

useUsers calls useQuery with only queryKey and queryFn, so the repository
configures no retry policy at all; the two options below are the retry
fields of the options object the code builds. -/

/-- The retry option passed by useUsers: absent. -/
def useUsersRetryOption : Option Nat := none

/-- The retryDelay option passed by useUsers: absent. -/
def useUsersRetryDelayOption : Option (Nat → Nat) := none

/-- Failure taxonomy of the spec (section 7). -/
inductive FailureKind where
  | networkFailure
  | timeoutFailure
  | clientRejection
  | serverFailure
  | parseFailure
deriving DecidableEq

/-- Modelled from the spec: the query library that useUsers delegates to is
not part of the repository; its documented default policy (which governs
because the code passes no retry options) retries every failure up to 3
times. -/
def defaultRetryCount : Nat := 3

/-- Modelled from the spec: the library's documented default backoff,
doubling from 1000ms and capped at 30000ms. -/
def defaultRetryDelay (attemptIdx : Nat) : Nat :=
  min (1000 * 2 ^ attemptIdx) 30000

/-- Modelled from the spec: the default policy does not inspect the failure
kind; every kind is retried. -/
def defaultRetryOnKind (_k : FailureKind) : Bool := true

/-- Retry loop: outcomes gives the result of each successive attempt; fuel
is the number of retries still allowed. Returns the number of attempts
made, the list of backoff delays waited, and the final result. -/
def runQueryFrom (outcomes : Nat → Except FailureKind UsersApiResponse)
    (delayFn : Nat → Nat) (retryOnKind : FailureKind → Bool) :
    Nat → Nat → Nat × List Nat × Except FailureKind UsersApiResponse
  | i, 0 => (1, [], outcomes i)
  | i, fuel + 1 =>
    match outcomes i with
    | Except.ok v => (1, [], Except.ok v)
    | Except.error k =>
      if retryOnKind k then
        let r := runQueryFrom outcomes delayFn retryOnKind (i + 1) fuel
        (r.1 + 1, delayFn i :: r.2.1, r.2.2)
      else (1, [], Except.error k)

/-- The fetch behaviour of useUsers: no repo-side retry configuration, so
the default count, backoff and kind-blind retry predicate govern. -/
def useUsersRun (outcomes : Nat → Except FailureKind UsersApiResponse) :
    Nat × List Nat × Except FailureKind UsersApiResponse :=
  runQueryFrom outcomes defaultRetryDelay defaultRetryOnKind 0 defaultRetryCount

/-! ## URL state codec (UsersPage state initialization and URL-sync effect) -/

/-- URLSearchParams observed through get: key to first value or null. -/
def SearchParams := String → Option String

def kPage : String := "page"

def kPageSize : String := "pageSize"

def kStatus : String := "status"

def kSearch : String := "search"

def kSortBy : String := "sortBy"

def kSortOrder : String := "sortOrder"

def kQuery : String := "query"

/-- The view state held by UsersPage. searchQuery stands for the settled
(debounced) search text, which is both what the URL-sync effect encodes
and what the fetch uses; pageIndex and pageSize are JavaScript numbers
that can be NaN (none). sorting is the MRT sorting array of
(column id, descending) entries, of which the page only ever reads the
first. -/
structure ViewState where
  searchQuery : String
  statusFilter : String
  pageIndex : Option Int
  pageSize : Option Int
  sorting : List (String × Bool)
deriving DecidableEq

/-- State initialization of UsersPage from searchParams: search falls back
to the empty string, status to the all sentinel (with no enum validation:
the as-cast is compile-time only), pageIndex is max(0, parseInt(page)-1)
with the page param defaulting to 1, pageSize is parseInt with the param
defaulting to 10, and sorting requires both sortBy and sortOrder to be
present and truthy. -/
def decodeViewState (qs : SearchParams) : ViewState :=
  { searchQuery := jsOr (qs kSearch) ""
    statusFilter := jsOr (qs kStatus) "all"
    pageIndex := (jsParseInt (jsOr (qs kPage) "1")).map (fun n => max 0 (n - 1))
    pageSize := jsParseInt (jsOr (qs kPageSize) "10")
    sorting :=
      match qs kSortBy, qs kSortOrder with
      | some c, some o => if c ≠ "" ∧ o ≠ "" then [(c, o == "desc")] else []
      | _, _ => [] }

/-- The URL-sync effect of UsersPage: always writes page (1-based) and
pageSize, writes status only when not the all sentinel, search only when
the debounced query is non-empty, and sortBy/sortOrder together only when
the sorting array is non-empty (using its first entry). -/
def encodeViewState (s : ViewState) : SearchParams := fun k =>
  if k = kPage then some (jsNumToString (s.pageIndex.map (fun i => i + 1)))
  else if k = kPageSize then some (jsNumToString s.pageSize)
  else if k = kStatus then
    (if s.statusFilter ≠ "all" then some s.statusFilter else none)
  else if k = kSearch then
    (if s.searchQuery ≠ "" then some s.searchQuery else none)
  else if k = kSortBy then
    (match s.sorting with | [] => none | (c, _) :: _ => some c)
  else if k = kSortOrder then
    (match s.sorting with | [] => none | (_, d) :: _ => some (if d then "desc" else "asc"))
  else none

/-- The normalization the decode step applies to pagination: clamp the
0-based page index at 0 (NaN passes through); decode applies no other
change to a state that is already in decoded form. -/
def normalizeViewState (s : ViewState) : ViewState :=
  { s with pageIndex := s.pageIndex.map (fun i => max 0 i) }

/-- UsersPage.handleSearchChange: store the new search text and reset to
the first page in the same update. -/
def handleSearchChange (value : String) (s : ViewState) : ViewState :=
  { s with searchQuery := value, pageIndex := some 0 }

/-- UsersPage.handleStatusFilterChange: store the new filter and reset to
the first page in the same update. -/
def handleStatusFilterChange (value : String) (s : ViewState) : ViewState :=
  { s with statusFilter := value, pageIndex := some 0 }

/-! ## fetchUsers request construction and API error handling -/

/-- JavaScript truthiness of an optional string. -/
def strTruthy : Option String → Bool
  | none => false
  | some s => s != ""

/-- The URLSearchParams built by fetchUsers: page and pageSize always,
query when truthy, status when truthy and not the all sentinel, sortBy
when truthy, sortOrder when both sortBy and sortOrder are truthy. -/
def fetchUsersSearchParams (p : PaginationParams) : SearchParams := fun k =>
  if k = kPage then some (intToString p.page)
  else if k = kPageSize then some (intToString p.pageSize)
  else if k = kQuery then (if p.query ≠ "" then some p.query else none)
  else if k = kStatus then
    (if p.status ≠ "" ∧ p.status ≠ "all" then some p.status else none)
  else if k = kSortBy then (if strTruthy p.sortBy then p.sortBy else none)
  else if k = kSortOrder then
    (if strTruthy p.sortBy && strTruthy p.sortOrder then p.sortOrder else none)
  else none

/-- The message field of a parsed error body, when it is a usable string. -/
structure ErrorBody where
  message : Option String
deriving DecidableEq

/-- A non-2xx HTTP response as observed by handleApiError: its status and
statusText, content-type header (null when absent), and the JSON body,
none standing for an unparseable or absent body (response.json threw). -/
structure HttpResponse where
  status : Nat
  statusText : String
  contentType : Option String
  jsonBody : Option ErrorBody
deriving DecidableEq

/-- The ApiError value thrown by handleApiError. -/
structure ApiError where
  status : Nat
  statusText : String
  message : String
  details : Option ErrorBody
deriving DecidableEq

/-- Whether the second list starts with the first. -/
def listStartsWith : List Char → List Char → Bool
  | [], _ => true
  | _ :: _, [] => false
  | p :: ps, c :: cs => p == c && listStartsWith ps cs

/-- Whether a character run occurs anywhere in a list. -/
def listContainsRun (pat : List Char) : List Char → Bool
  | [] => pat.isEmpty
  | c :: cs => listStartsWith pat (c :: cs) || listContainsRun pat cs

/-- JavaScript String.prototype.includes. -/
def strIncludes (s pat : String) : Bool :=
  listContainsRun pat.toList s.toList

def kJsonContentType : String := "application/json"

/-- handleApiError: details starts as the empty object and is replaced by
the parsed JSON body only when the content-type includes application/json
and parsing succeeds (parse errors are swallowed); the message is the
body's message field when truthy, else the context-derived fallback; the
thrown error always carries the response's status and statusText. -/
def handleApiError (response : HttpResponse) (context : String) : ApiError :=
  let details : Option ErrorBody :=
    match response.contentType with
    | some ct => if strIncludes ct kJsonContentType then response.jsonBody else none
    | none => none
  let msg : String :=
    match details with
    | some d =>
      match d.message with
      | some m => if m = "" then context ++ ": " ++ response.statusText else m
      | none => context ++ ": " ++ response.statusText
    | none => context ++ ": " ++ response.statusText
  { status := response.status, statusText := response.statusText,
    message := msg, details := details }

/-! ## Shared concrete fixtures used by witnesses and counterexamples -/

/-- A concrete fingerprint for the currently visible page. -/
def fp0 : PaginationParams :=
  { page := 1, pageSize := 10, query := "", status := "all",
    sortBy := none, sortOrder := none }

def userAnn : User :=
  { userId := "u1", name := "Ann", status := "active", groups := [("g1", "Admins")] }

def userBob : User :=
  { userId := "u2", name := "Bob", status := "inactive", groups := [] }

def resp0 : UsersApiResponse := ⟨{ users := [userAnn, userBob], totalCount := 2 }⟩

/-- A cache holding one page, with no invalidations performed yet. -/
def st0 : CacheState :=
  { cache := fun k => if k = fp0 then some resp0 else none, invalidations := 0 }

/-! ## Claim theorems -/

/-- Claim C1: for every cached collection response and every mutation
attempt made with the current page's parameters, if the network call
fails, then after the onError rollback of useUpdateUserStatus the cached
payload for that parameter fingerprint is exactly the payload captured
before the optimistic update was applied in onMutate. -/
theorem rollback_restores_previous_payload
    (st : CacheState) (fp : PaginationParams) (userId status : String) :
    (useUpdateOnError (useUpdateOnMutate (some fp) st userId status).1
        (useUpdateOnMutate (some fp) st userId status).2).cache fp
      = st.cache fp := by
  unfold useUpdateOnMutate useUpdateOnError
  cases hprev : st.cache fp with
  | none =>
    simp only [hprev]
    unfold setQueryDataWith
    rw [hprev]
    simp only [optimisticUpdater]
    exact hprev
  | some o =>
    simp only [hprev]
    unfold setQueryData
    simp

/-- Claim C2: for every cached payload and (userId, status) argument, the
optimistic update of onMutate changes only the status field of the record
whose userId matches; every other record and totalCount are unchanged. -/
theorem optimistic_update_frame
    (st : CacheState) (fp : PaginationParams) (userId status : String)
    (o : UsersApiResponse) (hprev : st.cache fp = some o) :
    ∃ o2, (useUpdateOnMutate (some fp) st userId status).1.cache fp = some o2 ∧
      o2.data.totalCount = o.data.totalCount ∧
      o2.data.users.length = o.data.users.length ∧
      ∀ (i : Nat) (u : User), o.data.users[i]? = some u →
        ∃ u2, o2.data.users[i]? = some u2 ∧
          (u.userId ≠ userId → u2 = u) ∧
          (u.userId = userId → u2.userId = u.userId ∧ u2.name = u.name ∧
            u2.groups = u.groups ∧ u2.status = status) := by
  refine ⟨⟨{ o.data with
    users := o.data.users.map
      (fun u => if u.userId = userId then { u with status := status } else u) }⟩,
    ?_, rfl, by simp, ?_⟩
  · unfold useUpdateOnMutate setQueryDataWith
    simp only [hprev]
    unfold optimisticUpdater
    simp
  · intro i u hget
    refine ⟨if u.userId = userId then { u with status := status } else u, ?_, ?_, ?_⟩
    · simp only [List.getElem?_map, hget, Option.map_some']
    · intro hne
      rw [if_neg hne]
    · intro heq
      rw [if_pos heq]
      exact ⟨rfl, rfl, rfl, rfl⟩

/-- Witness for C2 at a concrete cache, fingerprint and mutation. -/
theorem optimistic_update_frame_witness :
    st0.cache fp0 = some resp0 ∧
    ∃ o2, (useUpdateOnMutate (some fp0) st0 "u1" "inactive").1.cache fp0 = some o2 ∧
      o2.data.totalCount = resp0.data.totalCount ∧
      o2.data.users.length = resp0.data.users.length ∧
      ∀ (i : Nat) (u : User), resp0.data.users[i]? = some u →
        ∃ u2, o2.data.users[i]? = some u2 ∧
          (u.userId ≠ "u1" → u2 = u) ∧
          (u.userId = "u1" → u2.userId = u.userId ∧ u2.name = u.name ∧
            u2.groups = u.groups ∧ u2.status = "inactive") :=
  ⟨by decide, optimistic_update_frame st0 fp0 "u1" "inactive" resp0 (by decide)⟩

/-- Claim C3: for every successful mutation whose response carries a record
(possibly with server-overridden fields), the onSuccess merge leaves the
cache entry for the same fingerprint holding the server-returned field
values for the matching record, all other records unchanged. -/
theorem success_merge_server_authoritative
    (st : CacheState) (fp : PaginationParams) (result : MutationResult)
    (updated : User) (o : UsersApiResponse)
    (hres : result.data = some updated) (hprev : st.cache fp = some o) :
    ∃ o2, (useUpdateOnSuccess (some fp) st result).cache fp = some o2 ∧
      o2.data.totalCount = o.data.totalCount ∧
      o2.data.users.length = o.data.users.length ∧
      ∀ (i : Nat) (u : User), o.data.users[i]? = some u →
        ∃ u2, o2.data.users[i]? = some u2 ∧
          (u.userId ≠ updated.userId → u2 = u) ∧
          (u.userId = updated.userId → u2 = updated) := by
  refine ⟨⟨{ o.data with
    users := o.data.users.map
      (fun u => if u.userId = updated.userId then spreadUser u updated else u) }⟩,
    ?_, rfl, by simp, ?_⟩
  · unfold useUpdateOnSuccess
    rw [hres]
    unfold setQueryDataWith
    simp only [hprev]
    simp
  · intro i u hget
    refine ⟨if u.userId = updated.userId then spreadUser u updated else u, ?_, ?_, ?_⟩
    · simp only [List.getElem?_map, hget, Option.map_some']
    · intro hne
      rw [if_neg hne]
    · intro heq
      rw [if_pos heq]
      rfl

/-- The PATCH response used by the success-merge witness: the server
overrides the requested status. -/
def userAnnUpdated : User :=
  { userId := "u1", name := "Ann Updated", status := "inactive",
    groups := [("g2", "Editors")] }

def serverResult0 : MutationResult :=
  { success := true, data := some userAnnUpdated, message := "updated" }

/-- Witness for C3 at a concrete cache and server response. -/
theorem success_merge_server_authoritative_witness :
    serverResult0.data = some userAnnUpdated ∧
    st0.cache fp0 = some resp0 ∧
    ∃ o2, (useUpdateOnSuccess (some fp0) st0 serverResult0).cache fp0 = some o2 ∧
      o2.data.totalCount = resp0.data.totalCount ∧
      o2.data.users.length = resp0.data.users.length ∧
      ∀ (i : Nat) (u : User), resp0.data.users[i]? = some u →
        ∃ u2, o2.data.users[i]? = some u2 ∧
          (u.userId ≠ "u1" → u2 = u) ∧
          (u.userId = "u1" → u2 = userAnnUpdated) :=
  ⟨by decide, by decide,
    success_merge_server_authoritative st0 fp0 serverResult0 userAnnUpdated resp0 (by decide) (by decide)⟩

/-- Attempt outcomes: a client rejection on the first attempt, success after. -/
def outClientReject : Nat → Except FailureKind UsersApiResponse :=
  fun n => if n = 0 then Except.error FailureKind.clientRejection else Except.ok resp0

/-- Attempt outcomes: server failures on the first two attempts, success after. -/
def outTwoServerFailures : Nat → Except FailureKind UsersApiResponse :=
  fun n => if n < 2 then Except.error FailureKind.serverFailure else Except.ok resp0

/-- Counterexample to claim C4: the fetch path of useUsers does not follow
the claimed policy. A client-side rejection on the first attempt is
retried (2 attempts, not 1), and two server failures incur backoff delays
of 1000ms and 2000ms, not the claimed 500ms and 1000ms. -/
theorem useUsers_retry_claim_counterexample :
    ¬ ((useUsersRun outClientReject).1 = 1 ∧
       (useUsersRun outTwoServerFailures).2.1 = [500, 1000]) := by
  decide

/-- Claim C4 as amended: useUsers configures no retry policy of its own
(both retry options of its useQuery call are absent), so the library
defaults govern: every failure kind, client rejections included, is
retried, a first-attempt failure leads to a second attempt after 1000ms,
and persistent failure exhausts 4 attempts with delays 1000, 2000 and
4000 ms. -/
theorem useUsers_no_retry_config_defaults :
    useUsersRetryOption = none ∧ useUsersRetryDelayOption = none ∧
    (∀ k : FailureKind,
      (useUsersRun (fun n => if n = 0 then Except.error k else Except.ok resp0)).1 = 2 ∧
      (useUsersRun (fun n => if n = 0 then Except.error k else Except.ok resp0)).2.1
        = [1000]) ∧
    (∀ k : FailureKind,
      (useUsersRun (fun _ => Except.error k)).1 = 4 ∧
      (useUsersRun (fun _ => Except.error k)).2.1 = [1000, 2000, 4000]) := by
  refine ⟨rfl, rfl, ?_, ?_⟩ <;> intro k <;> exact ⟨rfl, rfl⟩

/-- Counterexample to claim C5: a successful confirmation of a mutation
invoked without current list parameters does not trigger any invalidation
of the users query cache; the invalidation counter stays at 0 instead of
being bumped. -/
theorem onSuccess_no_params_claim_counterexample :
    ¬ ((useUpdateOnSuccess none st0 serverResult0).invalidations
        = st0.invalidations + 1) := by
  decide

/-- Claim C5 as amended: when no fingerprint is supplied, a successful
confirmation leaves the cache state completely unchanged; no merge and no
invalidateAll happens (the code comments: never invalidate). The
invalidateAll operation exists only on the separate useInvalidateUsersCache
hook, which the mutation never calls. -/
theorem onSuccess_no_params_noop :
    (∀ (st : CacheState) (result : MutationResult),
      useUpdateOnSuccess none st result = st) ∧
    (∀ st : CacheState, (invalidateAllUsers st).invalidations = st.invalidations + 1) := by
  constructor
  · intro st result
    rfl
  · intro st
    rfl

/-! ### Getter lemmas for the encoded URL, one per key -/

theorem encode_page (s : ViewState) :
    encodeViewState s kPage
      = some (jsNumToString (s.pageIndex.map (fun i => i + 1))) := by
  unfold encodeViewState
  rw [if_pos rfl]

theorem encode_pageSize (s : ViewState) :
    encodeViewState s kPageSize = some (jsNumToString s.pageSize) := by
  unfold encodeViewState
  rw [if_neg (by decide), if_pos rfl]

theorem encode_status (s : ViewState) :
    encodeViewState s kStatus
      = (if s.statusFilter ≠ "all" then some s.statusFilter else none) := by
  unfold encodeViewState
  rw [if_neg (by decide), if_neg (by decide), if_pos rfl]

theorem encode_search (s : ViewState) :
    encodeViewState s kSearch
      = (if s.searchQuery ≠ "" then some s.searchQuery else none) := by
  unfold encodeViewState
  rw [if_neg (by decide), if_neg (by decide), if_neg (by decide), if_pos rfl]

theorem encode_sortBy (s : ViewState) :
    encodeViewState s kSortBy
      = (match s.sorting with | [] => none | (c, _) :: _ => some c) := by
  unfold encodeViewState
  rw [if_neg (by decide), if_neg (by decide), if_neg (by decide), if_neg (by decide),
    if_pos rfl]

theorem encode_sortOrder (s : ViewState) :
    encodeViewState s kSortOrder
      = (match s.sorting with
         | [] => none
         | (_, d) :: _ => some (if d then "desc" else "asc")) := by
  unfold encodeViewState
  rw [if_neg (by decide), if_neg (by decide), if_neg (by decide), if_neg (by decide),
    if_neg (by decide), if_pos rfl]

theorem jsOr_some {t d : String} (h : t ≠ "") : jsOr (some t) d = t := by
  simp [jsOr, h]

/-- Claim C6: for every reachable view state (status filter non-empty as
every reachable one is, and at most one sorting entry with a non-empty
column id, which is all the page ever produces or reads), decoding the
query string produced by encoding the state yields the state normalized
exactly as the decode step normalizes: the 0-based page index clamped at
0, everything else unchanged. -/
theorem decode_encode_roundtrip (s : ViewState)
    (hstatus : s.statusFilter ≠ "")
    (hsort : s.sorting = [] ∨ ∃ c d, s.sorting = [(c, d)] ∧ c ≠ "") :
    decodeViewState (encodeViewState s) = normalizeViewState s := by
  unfold decodeViewState normalizeViewState
  rw [encode_page, encode_pageSize, encode_status, encode_search, encode_sortBy,
    encode_sortOrder]
  simp only [ViewState.mk.injEq]
  refine ⟨?_, ?_, ?_, ?_, ?_⟩
  · by_cases hq : s.searchQuery = ""
    · simp [jsOr, hq]
    · simp [jsOr, hq]
  · by_cases hall : s.statusFilter = "all"
    · simp [jsOr, hall]
    · simp [jsOr, hall, hstatus]
  · rw [jsOr_some (jsNumToString_ne_empty _), jsParseInt_jsNumToString]
    cases s.pageIndex with
    | none => rfl
    | some i =>
      simp only [Option.map_some']
      congr 1
      omega
  · rw [jsOr_some (jsNumToString_ne_empty _), jsParseInt_jsNumToString]
  · rcases hsort with h | ⟨c, d, hs, hc⟩
    · rw [h]
    · rw [hs]
      cases d <;> simp [hc]

/-- A concrete reachable view state for the round-trip witness. -/
def vs0 : ViewState :=
  { searchQuery := "ann", statusFilter := "active", pageIndex := some 3,
    pageSize := some 25, sorting := [("name", true)] }

/-- Witness for C6 at a concrete view state. -/
theorem decode_encode_roundtrip_witness :
    vs0.statusFilter ≠ "" ∧
    (vs0.sorting = [] ∨ ∃ c d, vs0.sorting = [(c, d)] ∧ c ≠ "") ∧
    decodeViewState (encodeViewState vs0) = normalizeViewState vs0 :=
  ⟨by decide, Or.inr ⟨"name", true, rfl, by decide⟩,
    decode_encode_roundtrip vs0 (by decide) (Or.inr ⟨"name", true, rfl, by decide⟩)⟩

/-- The fetchUsers status search parameter, extracted. -/
theorem fetch_status (p : PaginationParams) :
    fetchUsersSearchParams p kStatus
      = (if p.status ≠ "" ∧ p.status ≠ "all" then some p.status else none) := by
  unfold fetchUsersSearchParams
  rw [if_neg (by decide), if_neg (by decide), if_neg (by decide), if_pos rfl]

/-- A URL whose status parameter holds a value outside the enum. -/
def qsBadStatus : SearchParams := fun k => if k = kStatus then some "banned" else none

/-- The list parameters a render with the garbage filter hands to fetchUsers. -/
def pBanned : PaginationParams :=
  { page := 1, pageSize := 10, query := "", status := "banned",
    sortBy := none, sortOrder := none }

/-- Counterexample to claim C7: decoding a status parameter outside
active/inactive does not fall back to the all sentinel (the as-cast has no
runtime effect), and fetchUsers propagates the garbage value to the
network query string. -/
theorem status_decode_claim_counterexample :
    ¬ ((decodeViewState qsBadStatus).statusFilter = "all") ∧
    fetchUsersSearchParams pBanned kStatus = some "banned" := by
  constructor
  · decide
  · decide

/-- Claim C7 as amended: decoding falls back to the all sentinel only when
the status parameter is missing or empty; any other value, including
values outside active/inactive, is kept verbatim and forwarded by
fetchUsers whenever it is neither empty nor the all sentinel. Encoding
omits the status field exactly when the filter equals the all sentinel. -/
theorem status_codec_amended :
    (∀ qs : SearchParams, qs kStatus = none → (decodeViewState qs).statusFilter = "all") ∧
    (∀ qs : SearchParams, qs kStatus = some "" → (decodeViewState qs).statusFilter = "all") ∧
    (∀ (qs : SearchParams) (v : String), qs kStatus = some v → v ≠ "" →
      (decodeViewState qs).statusFilter = v) ∧
    (∀ s : ViewState, s.statusFilter = "all" → encodeViewState s kStatus = none) ∧
    (∀ p : PaginationParams, p.status ≠ "" → p.status ≠ "all" →
      fetchUsersSearchParams p kStatus = some p.status) := by
  refine ⟨?_, ?_, ?_, ?_, ?_⟩
  · intro qs h
    show jsOr (qs kStatus) "all" = "all"
    rw [h]
    rfl
  · intro qs h
    show jsOr (qs kStatus) "all" = "all"
    rw [h]
    rfl
  · intro qs v h hv
    show jsOr (qs kStatus) "all" = v
    rw [h]
    exact jsOr_some hv
  · intro s h
    rw [encode_status, h]
    simp
  · intro p h1 h2
    rw [fetch_status]
    simp [h1, h2]

def qsEmptyParams : SearchParams := fun _ => none

def qsEmptyStatus : SearchParams := fun k => if k = kStatus then some "" else none

/-- A view state sitting on the all sentinel. -/
def vsAll : ViewState :=
  { searchQuery := "", statusFilter := "all", pageIndex := some 0,
    pageSize := some 10, sorting := [] }

def pActive : PaginationParams :=
  { page := 1, pageSize := 10, query := "", status := "active",
    sortBy := none, sortOrder := none }

/-- Witness for the amended C7 at concrete inputs. -/
theorem status_codec_amended_witness :
    (decodeViewState qsEmptyParams).statusFilter = "all" ∧
    (decodeViewState qsEmptyStatus).statusFilter = "all" ∧
    (decodeViewState qsBadStatus).statusFilter = "banned" ∧
    encodeViewState vsAll kStatus = none ∧
    fetchUsersSearchParams pActive kStatus = some "active" :=
  ⟨status_codec_amended.1 qsEmptyParams rfl,
   status_codec_amended.2.1 qsEmptyStatus (by decide),
   status_codec_amended.2.2.1 qsBadStatus "banned" (by decide) (by decide),
   status_codec_amended.2.2.2.1 vsAll rfl,
   status_codec_amended.2.2.2.2 pActive (by decide) (by decide)⟩

/-- A URL whose pageSize parameter is not numeric. -/
def qsBadPageSize : SearchParams := fun k => if k = kPageSize then some "abc" else none

/-- Counterexample to claim C8: a present but non-numeric pageSize does not
fall back to the documented default of 10; parseInt yields NaN and the
state keeps NaN as the page size. -/
theorem pageSize_decode_claim_counterexample :
    (decodeViewState qsBadPageSize).pageSize = none ∧
    ¬ ((decodeViewState qsBadPageSize).pageSize = some 10) := by
  constructor
  · decide
  · decide

/-- Claim C8 as amended: the default of 10 applies only when the pageSize
parameter is missing or empty (falsy); a present non-empty value is handed
to parseInt unguarded, so a non-numeric value produces NaN, not 10. -/
theorem pageSize_decode_amended :
    (∀ qs : SearchParams, qs kPageSize = none → (decodeViewState qs).pageSize = some 10) ∧
    (∀ qs : SearchParams, qs kPageSize = some "" →
      (decodeViewState qs).pageSize = some 10) ∧
    (∀ (qs : SearchParams) (v : String), qs kPageSize = some v → v ≠ "" →
      (decodeViewState qs).pageSize = jsParseInt v) := by
  refine ⟨?_, ?_, ?_⟩
  · intro qs h
    show jsParseInt (jsOr (qs kPageSize) "10") = some 10
    rw [h]
    decide
  · intro qs h
    show jsParseInt (jsOr (qs kPageSize) "10") = some 10
    rw [h]
    decide
  · intro qs v h hv
    show jsParseInt (jsOr (qs kPageSize) "10") = jsParseInt v
    rw [h, jsOr_some hv]

def qsEmptyPageSize : SearchParams := fun k => if k = kPageSize then some "" else none

def qsPageSize25 : SearchParams := fun k => if k = kPageSize then some "25" else none

/-- Witness for the amended C8 at concrete inputs. -/
theorem pageSize_decode_amended_witness :
    (decodeViewState qsEmptyParams).pageSize = some 10 ∧
    (decodeViewState qsEmptyPageSize).pageSize = some 10 ∧
    (decodeViewState qsPageSize25).pageSize = jsParseInt "25" :=
  ⟨pageSize_decode_amended.1 qsEmptyParams rfl,
   pageSize_decode_amended.2.1 qsEmptyPageSize (by decide),
   pageSize_decode_amended.2.2 qsPageSize25 "25" (by decide) (by decide)⟩

/-- The details object handleApiError ends up with: the parsed JSON body
exactly when the content type includes application/json and the body
parsed; the empty object (none) otherwise. -/
def parsedErrorDetails (r : HttpResponse) : Option ErrorBody :=
  match r.contentType with
  | some ct => if strIncludes ct kJsonContentType then r.jsonBody else none
  | none => none

/-- Claim C9: for every non-2xx response, including ones with no JSON body
or a non-JSON content type, handleApiError is total (no parse exception
escapes: an unparseable body simply leaves details empty) and always
produces an ApiError carrying the response's status and statusText; the
message is the body's message field when present and non-empty, otherwise
the context-derived fallback. -/
theorem handleApiError_total (r : HttpResponse) (context : String) :
    (handleApiError r context).status = r.status ∧
    (handleApiError r context).statusText = r.statusText ∧
    (handleApiError r context).details = parsedErrorDetails r ∧
    (∀ (b : ErrorBody) (m : String), parsedErrorDetails r = some b →
      b.message = some m → m ≠ "" → (handleApiError r context).message = m) ∧
    ((handleApiError r context).message = context ++ ": " ++ r.statusText ∨
      ∃ (b : ErrorBody) (m : String), parsedErrorDetails r = some b ∧
        b.message = some m ∧ (handleApiError r context).message = m) := by
  have key : (handleApiError r context).message =
      (match parsedErrorDetails r with
       | some d =>
         match d.message with
         | some m => if m = "" then context ++ ": " ++ r.statusText else m
         | none => context ++ ": " ++ r.statusText
       | none => context ++ ": " ++ r.statusText) := rfl
  refine ⟨rfl, rfl, rfl, ?_, ?_⟩
  · intro b m hb hm hne
    rw [key, hb]
    simp [hm, hne]
  · cases hd : parsedErrorDetails r with
    | none =>
      left
      rw [key, hd]
    | some b =>
      cases hm : b.message with
      | none =>
        left
        rw [key, hd]
        simp [hm]
      | some m =>
        by_cases hme : m = ""
        · left
          rw [key, hd]
          simp [hm, hme]
        · right
          refine ⟨b, m, rfl, hm, ?_⟩
          rw [key, hd]
          simp [hm, hme]

/-- A 404 response with a JSON error body, for the C9 witness. -/
def resp404 : HttpResponse :=
  { status := 404, statusText := "Not Found",
    contentType := some "application/json; charset=utf-8",
    jsonBody := some { message := some "User missing" } }

def ctxFetch : String := "Failed to fetch users"

/-- Witness for C9 at a concrete response and context. -/
theorem handleApiError_total_witness :
    (handleApiError resp404 ctxFetch).status = 404 ∧
    (handleApiError resp404 ctxFetch).message = "User missing" := by
  have h := handleApiError_total resp404 ctxFetch
  refine ⟨?_, ?_⟩
  · rw [h.1]
    decide
  · exact h.2.2.2.1 { message := some "User missing" } "User missing"
      (by decide) (by decide) (by decide)

/-- Claim C10: every search change and every status-filter change resets
the page index to 0 in the same state transition (page 1 in the URL),
leaving the page size untouched. -/
theorem search_filter_change_resets_page (v w : String) (s : ViewState) :
    (handleSearchChange v s).pageIndex = some 0 ∧
    (handleStatusFilterChange w s).pageIndex = some 0 ∧
    encodeViewState (handleSearchChange v s) kPage = some "1" ∧
    encodeViewState (handleStatusFilterChange w s) kPage = some "1" ∧
    (handleSearchChange v s).pageSize = s.pageSize ∧
    (handleStatusFilterChange w s).pageSize = s.pageSize := by
  refine ⟨rfl, rfl, ?_, ?_, rfl, rfl⟩ <;>
    · rw [encode_page]
      rfl

end Dashboard
